import Mathlib

/-!
Verification development for the PYQ paper-sharing backend
(Express + Supabase routes: auth, OTP reset, paper upload/search).

The JavaScript route handlers are shallowly embedded as pure Lean
functions over explicit state (lists of rows standing for the
`users`, `papers` and `otp_codes` tables).  External collaborators
(bcrypt, jsonwebtoken, the Supabase store and blob bucket,
Math.random) are modelled by explicit parameters or small injective
stand-ins, as noted on each definition.
-/

namespace PYQ

/-- A row of the `users` table (db_schema.sql lines 4-15).  `password`
holds the bcrypt hash, never the plaintext; `points` defaults to 0 and
`level` to "Silver". -/
structure User where
  id : Nat
  firstName : String
  lastName : String
  email : String
  phone : String
  password : String
  points : Nat
  level : String
  profilePic : String
deriving DecidableEq, Repr

/-- A row of the `papers` table (db_schema.sql lines 18-28). -/
structure Paper where
  id : Nat
  subject : String
  courseCode : String
  examYear : String
  examName : String
  category : String
  filePath : String
  uploaderId : Nat
deriving DecidableEq, Repr

/-- A row of the `otp_codes` table written by the send-otp handler
(part_000 lines 108-110): the target email, the 6-digit code as a
string, and a creation timestamp. -/
structure OtpRow where
  email : String
  otp : String
  createdAt : Nat
deriving DecidableEq, Repr

/-- Model of the bcrypt collaborator's `hash`: an injective tag of the
plaintext.  Real bcrypt output varies with the salt; all the handlers
rely on is that `compare` accepts exactly a hash of the same
plaintext, which this stand-in provides. -/
def bcryptHash (plaintext : String) : String :=
  String.append "bcrypt2a10" plaintext

/-- Model of bcrypt's `compare(plaintext, storedHash)`. -/
def bcryptCompare (plaintext storedHash : String) : Bool :=
  storedHash = bcryptHash plaintext

/-- Model of the signed JWT minted by `jwt.sign({user:{id}}, secret,
{expiresIn:'1h'})` (part_001 lines 43-47): the subject id, the expiry
instant, and the signing secret standing for the signature. -/
structure SessionToken where
  sub : Nat
  expiresAt : Nat
  signedWith : String
deriving DecidableEq, Repr

/-- `jwt.sign` model: binds the user id and a one-hour expiry. -/
def jwtSign (secret : String) (now : Nat) (userId : Nat) : SessionToken :=
  ⟨userId, now + 3600, secret⟩

/-- `jwt.verify` model: accepts a token exactly when the signature was
made with the same secret and the token has not expired, returning the
subject id. -/
def jwtVerify (secret : String) (now : Nat) (t : SessionToken) : Option Nat :=
  if t.signedWith = secret ∧ now < t.expiresAt then some t.sub else none

/-- The level written after an award, from part_004 lines 92-97 (the
client-side `updateLevel` of part_003 lines 565-570 is identical):
the new point total selects a tier by descending thresholds, but when
the total is below 1000 the previously stored level is kept — there is
no final else branch. -/
def recomputeLevel (newPoints : Nat) (prevLevel : String) : String :=
  if newPoints ≥ 4000 then "Legendary"
  else if newPoints ≥ 3000 then "Diamond"
  else if newPoints ≥ 2000 then "Gold"
  else if newPoints ≥ 1000 then "Silver"
  else prevLevel

/-- The pure threshold function described by the spec (section 4.4
table): every non-negative total gets exactly one tier, Silver below
2000, Gold from 2000, Diamond from 3000, Legendary from 4000. -/
def levelOfPoints (p : Nat) : String :=
  if p ≥ 4000 then "Legendary"
  else if p ≥ 3000 then "Diamond"
  else if p ≥ 2000 then "Gold"
  else "Silver"

/-- Tier order used to state monotonicity of the level assignment. -/
def levelRank : String → Nat
  | "Gold" => 1
  | "Diamond" => 2
  | "Legendary" => 3
  | _ => 0

/-- One award as the upload handler performs it on a (points, level)
pair (part_004 lines 91-101): add the fixed 50 points, then write the
level computed by `recomputeLevel` from the new total and the stored
level. -/
def awardOnce (s : Nat × String) : Nat × String :=
  let newPoints := s.1 + 50
  (newPoints, recomputeLevel newPoints s.2)

/-! ### Concurrency model of the award step (claim C1)

The points update of the upload handler (part_004 lines 82-103) is a
read followed by a write, with an I/O suspension point between them:
it first selects the user's current `points`, then updates the row to
the value read plus 50.  Each in-flight request is a two-step thread;
a schedule is a list of thread indices, each occurrence running the
named thread's next step against the shared point total. -/

/-- One in-flight award request.  `pc = 0`: about to read; `pc = 1`:
has read `reg` and is about to write `reg + 50`; `pc = 2`: done. -/
structure AwardThread where
  pc : Nat
  reg : Nat
deriving DecidableEq, Repr

/-- The shared state raced on: the stored point total plus the local
state of every in-flight award request. -/
structure LedgerSys where
  points : Nat
  threads : List AwardThread
deriving DecidableEq, Repr

/-- Run the next step of thread `i`: its read fetches the shared
total into its register; its write stores register + 50 back,
overwriting whatever the total is by then (the handler's update sets
the absolute value it computed, not an increment). -/
def stepAt (s : LedgerSys) (i : Nat) : LedgerSys :=
  match s.threads[i]? with
  | none => s
  | some t =>
    if t.pc = 0 then
      { s with threads := s.threads.set i ⟨1, s.points⟩ }
    else if t.pc = 1 then
      { points := t.reg + 50, threads := s.threads.set i ⟨2, t.reg⟩ }
    else s

/-- Run a whole schedule. -/
def runSched (s : LedgerSys) : List Nat → LedgerSys
  | [] => s
  | i :: rest => runSched (stepAt s i) rest

/-- `n` concurrent award requests over an initial total `p`. -/
def initLedger (p : Nat) (n : Nat) : LedgerSys :=
  ⟨p, List.replicate n ⟨0, 0⟩⟩

/-- Every request of the system has completed both of its steps. -/
def allDone (s : LedgerSys) : Bool :=
  s.threads.all (fun t => t.pc = 2)

/-! ### Auth handlers (part_001, mirrored by part_000) -/

/-- The `.eq('email', email).single()` lookup used by signup and
login: the first row whose `email` column exactly equals the given
string (Postgres `eq` on `text` is case-sensitive). -/
def findByEmail (users : List User) (email : String) : Option User :=
  users.find? (fun u => u.email = email)

/-- Outcome of the signup handler. -/
inductive SignupOutcome where
  | conflict
  | token (t : SessionToken)
deriving DecidableEq, Repr

/-- part_001 lines 8-53: signup pre-checks the exact email with
`.eq('email', email)`; if a row exists it answers 400 "User already
exists", otherwise it inserts the new user (points and level take the
schema defaults 0 and "Silver", db_schema.sql lines 11-12) and signs a
token for the fresh id.  The store's `unique` constraint on `email`
(db_schema.sql line 8) compares exact strings just as the pre-check
does, so in this sequential model the insert cannot be rejected. -/
def signup (users : List User) (firstName lastName email phone password : String)
    (newId : Nat) (secret : String) (now : Nat) : SignupOutcome × List User :=
  match findByEmail users email with
  | some _ => (.conflict, users)
  | none =>
    let newUser : User :=
      ⟨newId, firstName, lastName, email, phone, bcryptHash password, 0, "Silver", ""⟩
    (.token (jwtSign secret now newId), users ++ [newUser])

/-- Outcome of the login handler. -/
inductive LoginOutcome where
  | invalidCredentials
  | token (t : SessionToken)
deriving DecidableEq, Repr

/-- part_001 lines 56-84: login looks the user up by exact email and
answers 400 "Invalid Credentials" both when no row exists and when
bcrypt rejects the password; otherwise it signs a token for the found
user's id. -/
def login (users : List User) (email password : String)
    (secret : String) (now : Nat) : LoginOutcome :=
  match findByEmail users email with
  | none => .invalidCredentials
  | some u =>
    if bcryptCompare password u.password then .token (jwtSign secret now u.id)
    else .invalidCredentials

/-- Case-insensitive email equality, the comparison the spec's data
model prescribes for uniqueness. -/
def emailsEqCI (e1 e2 : String) : Bool :=
  e1.data.map Char.toLower = e2.data.map Char.toLower

/-! ### OTP handlers (part_000 lines 101-179) -/

/-- part_000 line 106: `Math.floor(100000 + Math.random() * 900000)`,
where `Math.random()` yields some rational `r` with `0 ≤ r < 1`. -/
def generateOtp (r : ℚ) : ℕ :=
  (⌊(100000 : ℚ) + r * 900000⌋).toNat

/-- The decimal digit string produced by `.toString()` on the
generated number, as a list of digits, most significant first. -/
def otpDigits (r : ℚ) : List ℕ :=
  (Nat.digits 10 (generateOtp r)).reverse

/-- The generated code as the string the handler stores and sends. -/
def otpString (r : ℚ) : String :=
  Nat.repr (generateOtp r)

/-- A digit sequence is a possible output of the OTP generator if some
outcome of `Math.random()` produces it. -/
def otpPossible (ds : List ℕ) : Prop :=
  ∃ r : ℚ, 0 ≤ r ∧ r < 1 ∧ otpDigits r = ds

/-- The JSON body answered by the send-otp handler: the message, and
the `otp` field when one is included. -/
structure OtpSendResponse where
  msg : String
  otp : Option String
deriving DecidableEq, Repr

/-- part_000 lines 101-124: send-otp generates the code from the
random outcome `r`, inserts an `otp_codes` row (timestamped `now`),
and on success answers `{ msg, otp }` — the generated code is part of
the response body (the source itself notes "In production REMOVE otp
from response").  `insertOk` models the store accepting the insert. -/
def sendOtp (otps : List OtpRow) (email : String) (r : ℚ) (now : Nat)
    (insertOk : Bool) : OtpSendResponse × List OtpRow :=
  let otp := otpString r
  if insertOk then
    ({ msg := "OTP sent successfully", otp := some otp }, otps ++ [⟨email, otp, now⟩])
  else
    ({ msg := "Failed to send OTP", otp := none }, otps)

/-- part_000 lines 130-151: verify-otp selects `otp_codes` rows whose
email and code both match, newest first, and answers 400 "Invalid OTP"
when none exists, else "OTP verified".  Only presence of a match
decides the answer; no row is consumed or deleted. -/
def verifyOtp (otps : List OtpRow) (email otp : String) : String :=
  if (otps.filter (fun row => row.email = email && row.otp = otp)).isEmpty then
    "Invalid OTP"
  else "OTP verified"

/-- part_000 lines 157-179: reset-password hashes the new password and
runs `update users set password = hashed where email = email`.  The
update succeeds whether or not any row matches, and the handler checks
no OTP at all, so the answer is "Password reset successful" for every
email unless the store itself errors. -/
def resetPassword (users : List User) (email newPassword : String) :
    String × List User :=
  let hashed := bcryptHash newPassword
  ("Password reset successful",
    users.map (fun u => if u.email = email then { u with password := hashed } else u))

/-! ### Paper handlers (part_004) -/

/-- Does `hay` start with `needle`, character by character? -/
def startsWithL : List Char → List Char → Bool
  | _, [] => true
  | [], _ :: _ => false
  | h :: t, n :: m => h = n && startsWithL t m

/-- Substring containment on character lists. -/
def containsL : List Char → List Char → Bool
  | [], needle => needle.isEmpty
  | h :: t, needle => startsWithL (h :: t) needle || containsL t needle

/-- Case-insensitive substring match, the meaning of the handler's
`ilike '%query%'` filter for wildcard-free queries. -/
def ciContains (field query : String) : Bool :=
  containsL (field.data.map Char.toLower) (query.data.map Char.toLower)

/-- part_004 line 144: the `.or(...)` filter matches a paper when the
query occurs case-insensitively in its subject, course code, or exam
name. -/
def paperMatches (query : String) (p : Paper) : Bool :=
  ciContains p.subject query || ciContains p.courseCode query || ciContains p.examName query

/-- The uploader object embedded in each search result (part_004
lines 161-165): first name, last name and picture reference — these
three fields and nothing else. -/
structure UploaderView where
  firstName : String
  lastName : String
  profilePic : String
deriving DecidableEq, Repr

/-- The JSON fields of the uploader object as the handler writes them,
key paired with string value. -/
def uploaderViewFields (v : UploaderView) : List (String × String) :=
  [("firstName", v.firstName), ("lastName", v.lastName), ("profilePic", v.profilePic)]

/-- One mapped search result (part_004 lines 152-166). -/
structure PaperView where
  id : Nat
  subject : String
  courseCode : String
  examYear : String
  examName : String
  category : String
  filePath : String
  uploader : Option UploaderView
deriving DecidableEq, Repr

/-- The enrichment of one paper row with its uploader's denormalized
identity, as the search handler's embedded `uploader:users(...)`
select plus the camelCase mapping produce it. -/
def enrichPaper (users : List User) (p : Paper) : PaperView :=
  { id := p.id, subject := p.subject, courseCode := p.courseCode,
    examYear := p.examYear, examName := p.examName, category := p.category,
    filePath := p.filePath,
    uploader := (users.find? (fun u => u.id = p.uploaderId)).map
      (fun u => ⟨u.firstName, u.lastName, u.profilePic⟩) }

/-- part_004 lines 127-173: search returns every paper when the query
is absent or empty (`if (query)` is falsy), and otherwise exactly the
rows passing the `ilike` filter, each enriched with its uploader. -/
def searchPapers (users : List User) (papers : List Paper) (query : String) :
    List PaperView :=
  let results := if query.isEmpty then papers else papers.filter (paperMatches query)
  results.map (enrichPaper users)

/-- The mapped response of a successful upload (part_004 lines
106-116): the new paper's fields with `uploader` holding the raw
uploader id. -/
structure UploadPaperView where
  id : Nat
  subject : String
  courseCode : String
  examYear : String
  examName : String
  category : String
  filePath : String
  uploader : Nat
deriving DecidableEq, Repr

/-- Outcome of the upload handler. -/
inductive UploadResult where
  | noFile          -- 400 'No file uploaded'
  | storageError    -- 500 'Error uploading file'
  | metadataError   -- 500 'Error saving paper metadata'
  | ok (v : UploadPaperView)
deriving DecidableEq, Repr

/-- part_004 lines 26-124: the upload handler.  External outcomes are
explicit inputs: `hasFile` (multer parsed a file), `blobOk` (the
Storage upload succeeded), `insertOk` (the papers insert was
accepted), `userFetchOk` (the select of the uploader's row did not
error); `publicUrl` is the blob reference stored in `file_path` and
`newPaperId` the id the store assigns.  After blob and metadata both
succeed it fetches the uploader's row; only when that fetch neither
errors nor comes back empty does it add 50 points and rewrite the
level (`recomputeLevel`), updating every users row with the uploader's
id.  The response is the mapped new paper either way. -/
def uploadPaper (users : List User) (papers : List Paper)
    (uid : Nat) (subject courseCode examYear examName category : String)
    (hasFile blobOk insertOk userFetchOk : Bool)
    (newPaperId : Nat) (publicUrl : String) :
    UploadResult × List User × List Paper :=
  if !hasFile then (.noFile, users, papers)
  else if !blobOk then (.storageError, users, papers)
  else if !insertOk then (.metadataError, users, papers)
  else
    let newPaper : Paper :=
      ⟨newPaperId, subject, courseCode, examYear, examName, category, publicUrl, uid⟩
    let users' :=
      if userFetchOk then
        match users.find? (fun u => u.id = uid) with
        | some u =>
          let newPoints := u.points + 50
          let newLevel := recomputeLevel newPoints u.level
          users.map (fun w =>
            if w.id = uid then { w with points := newPoints, level := newLevel } else w)
        | none => users
      else users
    (.ok ⟨newPaperId, subject, courseCode, examYear, examName, category, publicUrl, uid⟩,
      users', papers ++ [newPaper])

/-! ### Concrete fixtures used by counterexamples and witnesses -/

/-- A registered user with the schema defaults. -/
def demoUser : User :=
  ⟨1, "Asha", "R", "a@x.com", "9000000000", bcryptHash "pw123456", 0, "Silver", ""⟩

/-- A paper uploaded by `demoUser`. -/
def demoThermo : Paper :=
  ⟨10, "Thermodynamics", "ME201", "2023", "Sem1", "PYQ", "https://blob/t.pdf", 1⟩

/-- A second paper by `demoUser`, matching the query "algo". -/
def demoAlgo : Paper :=
  ⟨11, "Algorithms", "CS301", "2024", "Sem2", "PYQ", "https://blob/a.pdf", 1⟩

/-! ## Helper lemmas -/

/-- From 1000 points up, the written level ignores the stored level
and agrees with the spec's pure threshold function. -/
theorem recomputeLevel_of_ge (p : Nat) (l : String) (h : 1000 ≤ p) :
    recomputeLevel p l = levelOfPoints p := by
  unfold recomputeLevel levelOfPoints
  split_ifs <;> first | rfl | omega

/-- Below 2000 points the pure threshold function lands on Silver. -/
theorem levelOfPoints_of_lt (p : Nat) (h : p < 2000) :
    levelOfPoints p = "Silver" := by
  unfold levelOfPoints
  split_ifs <;> first | rfl | omega

/-- One award preserves agreement with the pure threshold function:
either the new total is at least 1000 and the level is recomputed, or
both the old and new totals are below 1000 and the retained level is
already Silver. -/
theorem recomputeLevel_step (p : Nat) :
    recomputeLevel (p + 50) (levelOfPoints p) = levelOfPoints (p + 50) := by
  by_cases h : 1000 ≤ p + 50
  · exact recomputeLevel_of_ge (p + 50) _ h
  · have hp : p < 2000 := by omega
    have hp' : p + 50 < 2000 := by omega
    rw [levelOfPoints_of_lt p hp, levelOfPoints_of_lt (p + 50) hp']
    unfold recomputeLevel
    split_ifs <;> first | rfl | omega

/-- Closed form of `k` sequential awards from the signup default
state: the total is `50 * k` and the level tracks the pure threshold
function. -/
theorem awardOnce_iterate_closed (k : Nat) :
    awardOnce^[k] (0, "Silver") = (50 * k, levelOfPoints (50 * k)) := by
  induction k with
  | zero => simp [levelOfPoints]
  | succ n ih =>
    rw [Function.iterate_succ_apply', ih]
    have h50 : 50 * n + 50 = 50 * (n + 1) := by ring
    show (50 * n + 50, recomputeLevel (50 * n + 50) (levelOfPoints (50 * n))) = _
    rw [recomputeLevel_step (50 * n), h50]

/-! ## Claims -/

/-- C1: the award step is a non-atomic read-then-write, so a
concurrent award can be lost.  With two in-flight awards over an
initial total of 0, the interleaving read-read-write-write runs both
requests to completion yet leaves the total at 50, not the 100 the
claim requires, while the serialized schedule does reach 100. -/
theorem C1_concurrent_award_lost_update :
    allDone (runSched (initLedger 0 2) [0, 1, 0, 1]) = true ∧
    (runSched (initLedger 0 2) [0, 1, 0, 1]).points = 50 ∧
    (runSched (initLedger 0 2) [0, 0, 1, 1]).points = 100 ∧
    (50 : Nat) ≠ 2 * 50 := by
  decide

/-- C2 counterexample: the stored level is not a pure function of the
post-award total.  Two awards landing on the same post-award total 50
store different levels depending on the previously stored level, and
neither recomputation matches the spec's threshold function, which
assigns Silver to 50. -/
theorem C2_level_not_pure_counterexample :
    awardOnce (0, "Gold") = (50, "Gold") ∧
    awardOnce (0, "Silver") = (50, "Silver") ∧
    levelOfPoints 50 = "Silver" ∧
    ("Gold" : String) ≠ "Silver" := by
  decide

/-- C2 (amended): the award step recomputes the stored level purely
from the post-award total only when that total is at least 1000
(below 1000 the previously stored level is retained unchanged); on
every state reachable from the signup default (0 points, level
Silver) the stored level equals the pure threshold function of the
total, and that function assigns exactly one of the four tiers to
every non-negative total and never decreases as points increase. -/
theorem C2_level_amended :
    (∀ p l l', 1000 ≤ p →
      recomputeLevel p l = recomputeLevel p l' ∧ recomputeLevel p l = levelOfPoints p) ∧
    (∀ k, (awardOnce^[k] (0, "Silver")).2 = levelOfPoints (awardOnce^[k] (0, "Silver")).1) ∧
    (∀ p q, p ≤ q → levelRank (levelOfPoints p) ≤ levelRank (levelOfPoints q)) ∧
    (∀ p, levelOfPoints p = "Silver" ∨ levelOfPoints p = "Gold" ∨
      levelOfPoints p = "Diamond" ∨ levelOfPoints p = "Legendary") := by
  refine ⟨?_, ?_, ?_, ?_⟩
  · intro p l l' h
    rw [recomputeLevel_of_ge p l h, recomputeLevel_of_ge p l' h]
    exact ⟨rfl, rfl⟩
  · intro k
    rw [awardOnce_iterate_closed k]
  · intro p q hpq
    unfold levelOfPoints
    split_ifs <;> first | decide | omega
  · intro p
    unfold levelOfPoints
    split_ifs <;>
      first
        | exact Or.inl rfl
        | exact Or.inr (Or.inl rfl)
        | exact Or.inr (Or.inr (Or.inl rfl))
        | exact Or.inr (Or.inr (Or.inr rfl))

/-- C2 witness: the amended statement evaluated at concrete inputs —
2000 points recompute to Gold whatever was stored, three awards from
the default state store the threshold level of 150 points, and the
tier of 500 points is no higher than the tier of 2500 points. -/
theorem C2_level_amended_witness :
    (recomputeLevel 2000 "Silver" = recomputeLevel 2000 "Legendary" ∧
      recomputeLevel 2000 "Silver" = levelOfPoints 2000) ∧
    (awardOnce^[3] (0, "Silver")).2 = levelOfPoints (awardOnce^[3] (0, "Silver")).1 ∧
    levelRank (levelOfPoints 500) ≤ levelRank (levelOfPoints 2500) :=
  ⟨C2_level_amended.1 2000 "Silver" "Legendary" (by decide),
   C2_level_amended.2.1 3,
   C2_level_amended.2.2.1 500 2500 (by decide)⟩

/-- C3 counterexample: reset-password answers "Password reset
successful" even when no User has the email (no NotFound), and stores
the new hash for a matching user although the handler consults no OTP
challenge at all — `resetPassword` does not even take a code. -/
theorem C3_reset_no_notfound_counterexample :
    (resetPassword [] "ghost@x.com" "newpw").1 = "Password reset successful" ∧
    (resetPassword [] "ghost@x.com" "newpw").1 ≠ "User not found" ∧
    (resetPassword [demoUser] "a@x.com" "newpw").2 =
      [{ demoUser with password := bcryptHash "newpw" }] := by
  decide

/-- C3 (amended): reset-password never fails with NotFound — it
answers success for every email; it rewrites the stored secret of
exactly the users whose email matches the given string, independent
of any OTP challenge, and when no user matches it changes nothing. -/
theorem C3_reset_amended (users : List User) (email pw : String) :
    (resetPassword users email pw).1 = "Password reset successful" ∧
    ((∀ u ∈ users, u.email ≠ email) → (resetPassword users email pw).2 = users) ∧
    (∀ u ∈ users, u.email = email →
      { u with password := bcryptHash pw } ∈ (resetPassword users email pw).2) := by
  refine ⟨rfl, ?_, ?_⟩
  · intro h
    show users.map _ = users
    rw [show users.map (fun u => if u.email = email then { u with password := bcryptHash pw } else u) = users.map id from ?_, List.map_id]
    apply List.map_congr_left
    intro u hu
    simp [h u hu]
  · intro u hu hue
    show _ ∈ users.map _
    refine List.mem_map.mpr ⟨u, hu, ?_⟩
    simp [hue]

/-- C3 witness: the amended statement at a concrete state — a store
holding only `demoUser` is unchanged by a reset for an unknown email,
with a success response. -/
theorem C3_reset_amended_witness :
    (resetPassword [demoUser] "ghost@x.com" "pw2").1 = "Password reset successful" ∧
    (resetPassword [demoUser] "ghost@x.com" "pw2").2 = [demoUser] := by
  have h := C3_reset_amended [demoUser] "ghost@x.com" "pw2"
  exact ⟨h.1, h.2.1 (by decide)⟩

/-- C4: the send-otp handler puts the generated code into its JSON
response body — `{ msg, otp }` — for every email and random outcome;
at random outcome 0 the body carries the code "100000", which is not
absent.  The source itself warns "In production REMOVE otp from
response". -/
theorem C4_otp_in_response_body :
    (∀ otps email r now, ((sendOtp otps email r now true).1).otp = some (otpString r)) ∧
    ((sendOtp [] "a@x.com" 0 0 true).1).otp = some "100000" ∧
    some "100000" ≠ (none : Option String) := by
  refine ⟨fun otps email r now => rfl, ?_, by decide⟩
  show some (otpString 0) = some "100000"
  have h : generateOtp 0 = 100000 := by norm_num [generateOtp]; decide
  unfold otpString
  rw [h]
  decide

/-- C5 counterexample: "012345" names a 6-digit decimal string (digit
sequence 0,1,2,3,4,5), yet no outcome of the random source produces
it: the generated number lies in [100000, 999999], while a digit
string starting with 0 would denote a number below 100000. -/
theorem C5_leading_zero_impossible_counterexample :
    ([0, 1, 2, 3, 4, 5] : List ℕ).length = 6 ∧
    (∀ d ∈ ([0, 1, 2, 3, 4, 5] : List ℕ), d < 10) ∧
    ¬ otpPossible [0, 1, 2, 3, 4, 5] := by
  refine ⟨by decide, by decide, ?_⟩
  rintro ⟨r, h0, h1, hd⟩
  have hfl : (100000 : ℤ) ≤ ⌊(100000 : ℚ) + r * 900000⌋ := by
    apply Int.le_floor.mpr
    push_cast
    nlinarith
  have hn : 100000 ≤ generateOtp r := by
    unfold generateOtp
    omega
  have hrev : Nat.digits 10 (generateOtp r) = [5, 4, 3, 2, 1, 0] := by
    have h2 := congrArg List.reverse hd
    simpa [otpDigits] using h2
  have h3 := Nat.ofDigits_digits 10 (generateOtp r)
  rw [hrev] at h3
  have h4 : Nat.ofDigits 10 [5, 4, 3, 2, 1, 0] = 12345 := by decide
  omega

/-- C5 (amended): for every outcome of the random source the
generated code is a 6-digit decimal string, but its leading digit is
never 0: the encoded number ranges over [100000, 999999] only, so
6-digit strings with leading zeros such as "012345" are not possible
outputs. -/
theorem C5_otp_amended (r : ℚ) (h0 : 0 ≤ r) (h1 : r < 1) :
    100000 ≤ generateOtp r ∧ generateOtp r ≤ 999999 ∧
    (otpDigits r).length = 6 ∧ (otpDigits r).head? ≠ some 0 := by
  have hfl : (100000 : ℤ) ≤ ⌊(100000 : ℚ) + r * 900000⌋ := by
    apply Int.le_floor.mpr
    push_cast
    nlinarith
  have hfu : ⌊(100000 : ℚ) + r * 900000⌋ < 1000000 := by
    apply Int.floor_lt.mpr
    push_cast
    nlinarith
  have hn : 100000 ≤ generateOtp r := by unfold generateOtp; omega
  have hn' : generateOtp r ≤ 999999 := by unfold generateOtp; omega
  have hne : generateOtp r ≠ 0 := by omega
  refine ⟨hn, hn', ?_, ?_⟩
  · have hlog : Nat.log 10 (generateOtp r) = 5 :=
      Nat.log_eq_of_pow_le_of_lt_pow (by norm_num; omega) (by norm_num; omega)
    rw [otpDigits, List.length_reverse,
      Nat.digits_len 10 (generateOtp r) (by norm_num) hne, hlog]
  · intro hhead
    rw [otpDigits, List.head?_reverse] at hhead
    have hmem : (0 : ℕ) ∈ (Nat.digits 10 (generateOtp r)).getLast? :=
      Option.mem_def.mpr hhead
    rcases List.mem_getLast?_eq_getLast hmem with ⟨hnil, h0eq⟩
    exact Nat.getLast_digit_ne_zero 10 hne h0eq.symm

/-- C5 witness: the amended statement at the concrete outcome 1/2,
whose code is 550000. -/
theorem C5_otp_amended_witness :
    100000 ≤ generateOtp (1/2) ∧ generateOtp (1/2) ≤ 999999 ∧
    (otpDigits (1/2)).length = 6 ∧ (otpDigits (1/2)).head? ≠ some 0 :=
  C5_otp_amended (1/2) (by norm_num) (by norm_num)

/-- C6 counterexample: with `demoUser` registered under "a@x.com",
signup with "A@X.com" — the same email under case-insensitive
comparison — is not rejected with Conflict and inserts a second User
row. -/
theorem C6_case_variant_duplicate_counterexample :
    emailsEqCI "a@x.com" "A@X.com" = true ∧
    (signup [demoUser] "Bea" "K" "A@X.com" "9111111111" "pw" 2 "tokensecret" 0).1 ≠
      SignupOutcome.conflict ∧
    ((signup [demoUser] "Bea" "K" "A@X.com" "9111111111" "pw" 2 "tokensecret" 0).2).length = 2 := by
  decide

/-- C6 (amended): email uniqueness is enforced case-sensitively: when
some existing User's email exactly equals the requested string, signup
fails with Conflict and creates no row; when no existing email equals
it exactly — even if one matches up to case — a new User row is
inserted. -/
theorem C6_signup_amended (users : List User) (fn ln email phone pw : String)
    (nid : Nat) (sec : String) (now : Nat) :
    ((∃ u ∈ users, u.email = email) →
      (signup users fn ln email phone pw nid sec now).1 = SignupOutcome.conflict ∧
      (signup users fn ln email phone pw nid sec now).2 = users) ∧
    ((∀ u ∈ users, u.email ≠ email) →
      ((signup users fn ln email phone pw nid sec now).2).length = users.length + 1) := by
  constructor
  · rintro ⟨u, hu, hue⟩
    have hfind : findByEmail users email ≠ none := by
      unfold findByEmail
      intro hnone
      have := List.find?_eq_none.mp hnone u hu
      simp [hue] at this
    obtain ⟨v, hv⟩ := Option.ne_none_iff_exists'.mp hfind
    simp [signup, hv]
  · intro h
    have hnone : findByEmail users email = none := by
      unfold findByEmail
      exact List.find?_eq_none.mpr (fun x hx => by simpa using h x hx)
    simp [signup, hnone]

/-- C6 witness: the amended statement at concrete states — an exact
duplicate of `demoUser`'s email is rejected and leaves the store
unchanged, while a fresh email grows the store by one row. -/
theorem C6_signup_amended_witness :
    (signup [demoUser] "Bea" "K" "a@x.com" "9" "pw" 2 "tokensecret" 0).1 =
      SignupOutcome.conflict ∧
    (signup [demoUser] "Bea" "K" "a@x.com" "9" "pw" 2 "tokensecret" 0).2 = [demoUser] ∧
    ((signup [demoUser] "Bea" "K" "b@x.com" "9" "pw" 2 "tokensecret" 0).2).length = 2 := by
  have h1 := (C6_signup_amended [demoUser] "Bea" "K" "a@x.com" "9" "pw" 2 "tokensecret" 0).1
    ⟨demoUser, by decide, by decide⟩
  have h2 := (C6_signup_amended [demoUser] "Bea" "K" "b@x.com" "9" "pw" 2 "tokensecret" 0).2
    (by decide)
  exact ⟨h1.1, h1.2, by simpa using h2⟩

/-- C7 counterexample: the uploader object attached to each search
result is built from exactly the keys firstName, lastName and
profilePic — the uploader's level is not among the fields, so the
returned records do not carry it. -/
theorem C7_no_level_in_enrichment_counterexample :
    (searchPapers [demoUser] [demoThermo] "").map
        (fun v => v.uploader.map (fun uv => (uploaderViewFields uv).map Prod.fst)) =
      [some ["firstName", "lastName", "profilePic"]] ∧
    "level" ∉ ["firstName", "lastName", "profilePic"] := by
  decide

/-- C7 (amended): search with the empty query returns every Paper
enriched with its uploader, and search with a non-empty query returns
exactly the Papers whose subject, course code, or exam name contains
the query case-insensitively — in the spec's own scenario, "algo"
returns only the Algorithms paper; the enrichment carries the
uploader's first/last name and picture reference but not the level. -/
theorem C7_search_amended :
    (∀ users papers (p : Paper), p ∈ papers →
      enrichPaper users p ∈ searchPapers users papers "") ∧
    (∀ users papers (q : String), q.isEmpty = false →
      ∀ v, v ∈ searchPapers users papers q ↔
        ∃ p ∈ papers, paperMatches q p = true ∧ v = enrichPaper users p) ∧
    searchPapers [demoUser] [demoThermo, demoAlgo] "algo" =
      [{ id := 11, subject := "Algorithms", courseCode := "CS301", examYear := "2024",
         examName := "Sem2", category := "PYQ", filePath := "https://blob/a.pdf",
         uploader := some ⟨"Asha", "R", ""⟩ }] := by
  refine ⟨?_, ?_, by decide⟩
  · intro users papers p hp
    simp only [searchPapers, String.isEmpty, if_pos rfl]
    exact List.mem_map_of_mem _ hp
  · intro users papers q hne v
    simp only [searchPapers, hne, if_neg Bool.false_ne_true, List.mem_map, List.mem_filter]
    constructor
    · rintro ⟨p, ⟨hp, hm⟩, hv⟩
      exact ⟨p, hp, hm, hv.symm⟩
    · rintro ⟨p, hp, hm, hv⟩
      exact ⟨p, ⟨hp, hm⟩, hv.symm⟩

/-- C7 witness: the amended statement at concrete stores — the
Thermodynamics paper appears in the empty-query result, and the
Algorithms paper appears in the result for "algo". -/
theorem C7_search_amended_witness :
    enrichPaper [demoUser] demoThermo ∈
      searchPapers [demoUser] [demoThermo, demoAlgo] "" ∧
    enrichPaper [demoUser] demoAlgo ∈
      searchPapers [demoUser] [demoThermo, demoAlgo] "algo" :=
  ⟨C7_search_amended.1 [demoUser] [demoThermo, demoAlgo] demoThermo (by decide),
   (C7_search_amended.2.1 [demoUser] [demoThermo, demoAlgo] "algo" (by decide)
       (enrichPaper [demoUser] demoAlgo)).mpr
     ⟨demoAlgo, by decide, by decide, rfl⟩⟩

/-- C8: when signup succeeds (no existing row holds the email), a
login with the same email and secret succeeds against the resulting
store, and verifying the minted token — any time before its one-hour
expiry — yields exactly the id given to the created User. -/
theorem C8_signup_login_roundtrip (users : List User)
    (fn ln email phone pw : String) (nid : Nat) (sec : String) (n1 n2 n3 : Nat)
    (hfree : findByEmail users email = none) (hexp : n3 < n2 + 3600) :
    (signup users fn ln email phone pw nid sec n1).1 =
      SignupOutcome.token (jwtSign sec n1 nid) ∧
    login (signup users fn ln email phone pw nid sec n1).2 email pw sec n2 =
      LoginOutcome.token (jwtSign sec n2 nid) ∧
    jwtVerify sec n3 (jwtSign sec n2 nid) = some nid := by
  have husers : (signup users fn ln email phone pw nid sec n1).2 =
      users ++ [⟨nid, fn, ln, email, phone, bcryptHash pw, 0, "Silver", ""⟩] := by
    simp [signup, hfree]
  refine ⟨by simp [signup, hfree], ?_, ?_⟩
  · rw [husers]
    unfold login findByEmail
    rw [List.find?_append]
    unfold findByEmail at hfree
    rw [hfree]
    simp [List.find?, bcryptCompare]
  · simp [jwtVerify, jwtSign, hexp]

/-- C8 witness: the round trip at a concrete signup over the empty
store. -/
theorem C8_signup_login_roundtrip_witness :
    (signup [] "Asha" "R" "a@x.com" "9" "pw123456" 7 "tokensecret" 100).1 =
      SignupOutcome.token (jwtSign "tokensecret" 100 7) ∧
    login (signup [] "Asha" "R" "a@x.com" "9" "pw123456" 7 "tokensecret" 100).2
        "a@x.com" "pw123456" "tokensecret" 200 =
      LoginOutcome.token (jwtSign "tokensecret" 200 7) ∧
    jwtVerify "tokensecret" 300 (jwtSign "tokensecret" 200 7) = some 7 :=
  C8_signup_login_roundtrip [] "Asha" "R" "a@x.com" "9" "pw123456" 7 "tokensecret"
    100 200 300 (by decide) (by decide)

/-- C9: points are awarded only after both the blob write and the
metadata insert succeed.  When the blob write succeeds but the insert
fails, the handler answers the 500 metadata error, creates no Paper
row, and leaves every user's points and level untouched; a failed
blob write likewise stops the request before any state change. -/
theorem C9_no_award_on_partial_failure (users : List User) (papers : List Paper)
    (uid : Nat) (s cc ey en cat : String) (ufOk : Bool) (nid : Nat) (url : String) :
    uploadPaper users papers uid s cc ey en cat true true false ufOk nid url =
      (UploadResult.metadataError, users, papers) ∧
    uploadPaper users papers uid s cc ey en cat true false false ufOk nid url =
      (UploadResult.storageError, users, papers) ∧
    uploadPaper users papers uid s cc ey en cat true false true ufOk nid url =
      (UploadResult.storageError, users, papers) :=
  ⟨rfl, rfl, rfl⟩

/-- C10: after blob and metadata writes both succeed, if the award
step's read of the uploader's row errors or finds no user, the
request still answers the successful mapped paper, the users table is
left exactly as it was — the award is silently skipped — and the new
Paper row is kept. -/
theorem C10_award_silently_skipped (users : List User) (papers : List Paper)
    (uid : Nat) (s cc ey en cat : String) (ufOk : Bool) (nid : Nat) (url : String)
    (h : ufOk = false ∨ users.find? (fun u => u.id = uid) = none) :
    uploadPaper users papers uid s cc ey en cat true true true ufOk nid url =
      (UploadResult.ok ⟨nid, s, cc, ey, en, cat, url, uid⟩, users,
        papers ++ [⟨nid, s, cc, ey, en, cat, url, uid⟩]) := by
  rcases h with h | h
  · subst h
    rfl
  · cases ufOk
    · rfl
    · simp [uploadPaper, h]

/-- C10 witness: a concrete upload whose uploader id resolves to no
user row still succeeds without touching the (empty) users table. -/
theorem C10_award_silently_skipped_witness :
    uploadPaper [] [] 1 "S" "C" "Y" "N" "Cat" true true true true 5 "u" =
      (UploadResult.ok ⟨5, "S", "C", "Y", "N", "Cat", "u", 1⟩, [],
        [⟨5, "S", "C", "Y", "N", "Cat", "u", 1⟩]) :=
  C10_award_silently_skipped [] [] 1 "S" "C" "Y" "N" "Cat" true 5 "u" (Or.inr (by decide))

end PYQ
